import Mathlib

/-!
Verification of the confidence-calibration and decision-validation subsystem of
the SENTINEL payment-remediation pipeline.

The definitions below are a shallow embedding of the Python sources:
  * `src/models.py`            — `AgentDecision` pydantic model and its validators,
  * `src/safety_validator.py`  — `validate_decision`, `create_safety_override`,
  * `src/tools/validation_tool.py` — `ValidationTool.validate`,
  * `src/executor_agent.py`    — the refusal wiring in `execute_decisions`,
  * `src/council_agent.py`     — clustering rank, pattern classification,
                                 confidence calibration rule cascade.

Conventions: Python floats are modelled as rationals (`ℚ`); Python `None` as
`Option.none`; Python strings as Lean `String`, with substring search and
lowercasing implemented character-by-character below (Python's `str.lower` is
Unicode-aware; `Char.toLower` covers the ASCII range, which is all the searched
keywords use).
-/

/-! ## String helpers (Python `in`, `str.lower`, and `re.search` with `\b`) -/

/-- Character-wise lowercase of a string, modelling Python `str.lower()`. -/
def lowerStr (s : String) : String :=
  String.mk (s.toList.map Char.toLower)

/-- Check that `need` is an initial segment of `hay`. -/
def leadsWith : List Char → List Char → Bool
  | [], _ => true
  | _ :: _, [] => false
  | a :: as, b :: bs => a == b && leadsWith as bs

/-- Check that `need` occurs contiguously somewhere inside `hay`. -/
def hasSub (need : List Char) : List Char → Bool
  | [] => need.isEmpty
  | c :: rest => leadsWith need (c :: rest) || hasSub need rest

/-- Python's `pat in s` substring test. -/
def containsSub (pat s : String) : Bool :=
  hasSub pat.toList s.toList

/-- Word characters for the `\b` boundary of Python regexes (ASCII range). -/
def isWordChar (c : Char) : Bool :=
  c.isAlpha || c.isDigit || c == '_'

/-- Check that `w` occurs at the head of `s` and is followed by a word boundary. -/
def boundedAt (w : List Char) (s : List Char) : Bool :=
  leadsWith w s &&
    (match s.drop w.length with
     | [] => true
     | c :: _ => !isWordChar c)

/-- Scan `s` for an occurrence of `w` delimited by word boundaries; `prev` is the
character just before the current position (`none` at the start of the string). -/
def hasWordAux (w : List Char) (prev : Option Char) : List Char → Bool
  | [] => false
  | c :: rest =>
      ((match prev with | none => true | some p => !isWordChar p) && boundedAt w (c :: rest))
        || hasWordAux w (some c) rest

/-- Python `re.search` of the pattern `\bw\b` inside `s`. -/
def hasWord (w s : String) : Bool :=
  hasWordAux w.toList none s.toList

/-! ## Enumerations (src/models.py) -/

/-- All possible agent decision types (`DecisionEnum` in src/models.py). -/
inductive DecisionEnum
  | REROUTE | IGNORE | ALERT | THROTTLE | FAILOVER | CIRCUIT_BREAK | BLOCK_USER
  | BLOCK_CARD | RATE_LIMIT | STEP_UP_AUTH | HOLD_FOR_REVIEW | ESCALATE_SECURITY
  | ESCALATE_PRIORITY | COMPLIANCE_HOLD
  deriving DecidableEq

/-- String value of a decision type (the `str`-enum values in src/models.py). -/
def DecisionEnum.toStr : DecisionEnum → String
  | .REROUTE => "REROUTE"
  | .IGNORE => "IGNORE"
  | .ALERT => "ALERT"
  | .THROTTLE => "THROTTLE"
  | .FAILOVER => "FAILOVER"
  | .CIRCUIT_BREAK => "CIRCUIT_BREAK"
  | .BLOCK_USER => "BLOCK_USER"
  | .BLOCK_CARD => "BLOCK_CARD"
  | .RATE_LIMIT => "RATE_LIMIT"
  | .STEP_UP_AUTH => "STEP_UP_AUTH"
  | .HOLD_FOR_REVIEW => "HOLD_FOR_REVIEW"
  | .ESCALATE_SECURITY => "ESCALATE_SECURITY"
  | .ESCALATE_PRIORITY => "ESCALATE_PRIORITY"
  | .COMPLIANCE_HOLD => "COMPLIANCE_HOLD"

/-- Temporal pattern indicators (`TemporalSignalEnum` in src/models.py). -/
inductive TemporalSignalEnum
  | stable | spike_detected | declining
  deriving DecidableEq

/-- Risk classification categories (`RiskCategoryEnum` in src/models.py). -/
inductive RiskCategoryEnum
  | payment_failure | high_traffic | server_outage | suspicious_activity
  | high_risk_payment
  deriving DecidableEq

/-! ## AgentDecision and its pydantic validators (src/models.py) -/

/-- Field contents of an `AgentDecision` (src/models.py). A value of this type is
a *candidate*; construction in pydantic succeeds only when `agentDecisionValid`
holds, which `mkAgentDecision` models. -/
structure AgentDecision where
  pattern_detected : String
  affected_volume : Int
  avg_amount : ℚ
  cost_analysis : String
  temporal_signal : TemporalSignalEnum
  decision : DecisionEnum
  risk_category : RiskCategoryEnum
  reasoning : String
  confidence : ℚ
  deriving DecidableEq

/-- Negative-profit indicators scanned by `validate_decision_cost_alignment`
(src/models.py). -/
def negativeIndicators : List String :=
  ["net: -", "net: (-", "negative", "loss of", "waste", "net profit: -"]

/-- Check whether the cost narrative encodes a negative net benefit: some
negative indicator occurs in the lowercased `cost_analysis`
(`validate_decision_cost_alignment` in src/models.py). -/
def hasNegativeCost (cost_analysis : String) : Bool :=
  negativeIndicators.any (fun ind => containsSub ind (lowerStr cost_analysis))

/-- Forbidden technical jargon words of `validate_no_technical_jargon`
(src/models.py); each is matched as a whole word (`\b...\b`, case-insensitive,
hence lowercase here since the reasoning is lowercased before the search). -/
def forbiddenJargon : List String :=
  ["model", "algorithm", "neural network", "machine learning", "ai"]

/-- Check for forbidden jargon in the (lowercased) reasoning narrative. -/
def hasJargon (reasoning : String) : Bool :=
  forbiddenJargon.any (fun w => hasWord w (lowerStr reasoning))

/-- Check of `validate_cost_contains_currency` (src/models.py): the cost
narrative must contain the rupee symbol or `Rs`. -/
def costMentionsCurrency (s : String) : Bool :=
  containsSub "₹" s || containsSub "Rs" s

/-- Conjunction of all pydantic checks on an `AgentDecision` (src/models.py):
field ranges and minimum lengths, the currency check, the jargon denylist, and
the decision/cost-alignment model validator. -/
def agentDecisionValid (d : AgentDecision) : Bool :=
  decide (20 ≤ d.pattern_detected.length) &&
  decide (1 ≤ d.affected_volume) &&
  decide (0 < d.avg_amount) &&
  decide (30 ≤ d.cost_analysis.length) &&
  decide (100 ≤ d.reasoning.length) &&
  decide (0 ≤ d.confidence) &&
  decide (d.confidence ≤ 1) &&
  costMentionsCurrency d.cost_analysis &&
  !hasJargon d.reasoning &&
  !(hasNegativeCost d.cost_analysis && decide (d.decision = DecisionEnum.REROUTE))

/-- Construction of an `AgentDecision` through pydantic: returns the decision
unchanged when every validator passes and fails (raises) otherwise. -/
def mkAgentDecision (d : AgentDecision) : Option AgentDecision :=
  if agentDecisionValid d then some d else none

/-! ## Safety validator (src/safety_validator.py) -/

/-- Configured confidence threshold (`CONFIDENCE_THRESHOLD` in src/config.py). -/
def CONFIDENCE_THRESHOLD : ℚ := 0.70

/-- Structured refusal reasons of `validate_decision` (src/safety_validator.py);
the source formats these as strings, one per return site, carrying the shown
values. -/
inductive SafetyReason
  | passed
  | confidenceBelow (confidence threshold : ℚ)
  | rerouteNegative
  | volumeExceeds (volume : Int)
  deriving DecidableEq

/-- Safety gate `validate_decision` (src/safety_validator.py): confidence
threshold, then REROUTE net-benefit check, then volume ceiling. -/
def validate_decision (d : AgentDecision) : Bool × SafetyReason :=
  if d.confidence < CONFIDENCE_THRESHOLD then
    (false, SafetyReason.confidenceBelow d.confidence CONFIDENCE_THRESHOLD)
  else if d.decision = DecisionEnum.REROUTE ∧
      (containsSub "Net: -" d.cost_analysis ∨ containsSub "Net -" d.cost_analysis) then
    (false, SafetyReason.rerouteNegative)
  else if 1000 < d.affected_volume then
    (false, SafetyReason.volumeExceeds d.affected_volume)
  else
    (true, SafetyReason.passed)

/-- Modelled from the spec: the `SafetyOverride` record class is imported from
`models` by src/safety_validator.py and src/executor_agent.py, but its class
definition is not present under src; the fields follow §3 of the specification
and the construction site in `create_safety_override`. -/
structure SafetyOverride where
  pattern : String
  original_decision : DecisionEnum
  confidence : ℚ
  reason : SafetyReason
  affected : Int
  cost_avoided : ℚ
  deriving DecidableEq

/-- Safety override construction `create_safety_override`
(src/safety_validator.py): `cost_avoided` is the affected volume times the
per-transaction reroute cost of 15.00. -/
def create_safety_override (d : AgentDecision) (refusal_reason : SafetyReason) :
    SafetyOverride :=
  { pattern := d.pattern_detected
    original_decision := d.decision
    confidence := d.confidence
    reason := refusal_reason
    affected := d.affected_volume
    cost_avoided := (d.affected_volume : ℚ) * 15.00 }

/-- Refusal wiring of `execute_decisions` (src/executor_agent.py, lines 66–73):
a decision that fails the safety gate yields a `SafetyOverride` record appended
to the refusal set; an approved decision yields none. -/
def safetyStep (d : AgentDecision) : Option SafetyOverride :=
  let v := validate_decision d
  if v.1 then none else some (create_safety_override d v.2)

/-! ## ValidationTool (src/tools/validation_tool.py) -/

/-- Structured refusal reasons of `ValidationTool.validate`, one per return
site in the source. -/
inductive ToolReason
  | passed
  | confidenceBelow (confidence : ℚ)
  | volumeExceeds (volume : Int)
  | rerouteNegative
  deriving DecidableEq

/-- Pre-execution checks of `ValidationTool.validate`
(src/tools/validation_tool.py): confidence threshold, then volume ceiling, then
REROUTE net-benefit check — the same three conditions as `validate_decision`
but in a different order. -/
def ValidationTool.validate (decision : String) (confidence : ℚ)
    (cost_analysis : String) (affected_volume : Int) : Bool × ToolReason :=
  if confidence < CONFIDENCE_THRESHOLD then
    (false, ToolReason.confidenceBelow confidence)
  else if 1000 < affected_volume then
    (false, ToolReason.volumeExceeds affected_volume)
  else if decision = "REROUTE" ∧
      (containsSub "Net: -" cost_analysis ∨ containsSub "Net -" cost_analysis) then
    (false, ToolReason.rerouteNegative)
  else
    (true, ToolReason.passed)

/-! ## Concrete decisions used by the witnesses -/

/-- A well-formed REROUTE decision (the worked example of src/models.py). -/
def rerouteDemoDecision : AgentDecision :=
  { pattern_detected := "HDFC Rewards >₹5,000 failing during 14:00-16:00 window"
    affected_volume := 47
    avg_amount := 7842.50
    cost_analysis := "Reroute cost: ₹705 (47 × ₹15). Revenue saved: ₹7,332. Net: +₹6,627"
    temporal_signal := TemporalSignalEnum.stable
    decision := DecisionEnum.REROUTE
    risk_category := RiskCategoryEnum.payment_failure
    reasoning := "High-value Rewards card segment showing 98% failure rate in afternoon window. Each transaction has substantial margin averaging ₹156. Clear systemic issue, not random failures. Reroute to Axis Bank."
    confidence := 0.94 }

/-- A decision whose affected volume exceeds the safety ceiling of 1000. -/
def oversizedDecision : AgentDecision :=
  { rerouteDemoDecision with
    pattern_detected := "SBI Debit 100-1000 failing across the full day"
    affected_volume := 1500
    decision := DecisionEnum.ALERT
    confidence := 0.95 }

/-- A decision with confidence below the 0.70 threshold. -/
def lowConfidenceDecision : AgentDecision :=
  { rerouteDemoDecision with confidence := 0.65 }

/-! ## Claims about the Decision Validator and the Safety Gate -/

/-- C1: every candidate decision accepted by the Decision Validator (pydantic
`AgentDecision` construction succeeds) is not a REROUTE whose cost narrative
encodes a negative net benefit; such a contradictory candidate is rejected
outright (construction fails), never corrected. -/
theorem C1_accepted_never_reroute_with_negative_net (f d : AgentDecision)
    (h : mkAgentDecision f = some d) :
    ¬(d.decision = DecisionEnum.REROUTE ∧ hasNegativeCost d.cost_analysis = true) := by
  rintro ⟨hr, hn⟩
  unfold mkAgentDecision at h
  by_cases hv : agentDecisionValid f = true
  · rw [if_pos hv] at h
    injection h with h
    subst h
    unfold agentDecisionValid at hv
    simp only [Bool.and_eq_true, Bool.not_eq_true', Bool.and_eq_false_iff,
      decide_eq_true_eq, decide_eq_false_iff_not] at hv
    rcases hv.2 with h1 | h2
    · rw [hn] at h1; exact Bool.noConfusion h1
    · exact h2 hr
  · rw [if_neg hv] at h
    exact Option.noConfusion h

set_option maxRecDepth 8000 in
/-- C1 witness: the demo REROUTE decision is accepted, and indeed its cost
narrative carries no negative-net indicator. -/
theorem C1_witness :
    ¬(rerouteDemoDecision.decision = DecisionEnum.REROUTE ∧
      hasNegativeCost rerouteDemoDecision.cost_analysis = true) :=
  C1_accepted_never_reroute_with_negative_net rerouteDemoDecision rerouteDemoDecision (by
    have hv : agentDecisionValid rerouteDemoDecision = true := by
      simp only [agentDecisionValid, rerouteDemoDecision, Bool.and_eq_true, decide_eq_true_eq]
      repeat' apply And.intro
      all_goals first | decide | norm_num
    simp [mkAgentDecision, hv])

/-- C2: a decision whose affected volume exceeds 1000 is never approved by the
Safety Gate; the refusal yields a `SafetyOverride` record whose avoided cost is
the affected volume times the per-transaction intervention cost of 15. -/
theorem C2_volume_ceiling_refused (d : AgentDecision)
    (h : 1000 < d.affected_volume) :
    (validate_decision d).1 = false ∧
    safetyStep d = some (create_safety_override d (validate_decision d).2) ∧
    (create_safety_override d (validate_decision d).2).cost_avoided
      = (d.affected_volume : ℚ) * 15 := by
  have hfst : (validate_decision d).1 = false := by
    unfold validate_decision
    repeat' split
    all_goals rfl
  refine ⟨hfst, ?_, ?_⟩
  · simp only [safetyStep, hfst, Bool.false_eq_true, if_false]
  · norm_num [create_safety_override]

/-- C2 witness: a volume-1500 decision is refused and its override records an
avoided cost of 1500 × 15. -/
theorem C2_witness :
    (validate_decision oversizedDecision).1 = false ∧
    safetyStep oversizedDecision
      = some (create_safety_override oversizedDecision (validate_decision oversizedDecision).2) ∧
    (create_safety_override oversizedDecision (validate_decision oversizedDecision).2).cost_avoided
      = (oversizedDecision.affected_volume : ℚ) * 15 :=
  C2_volume_ceiling_refused oversizedDecision (by decide)

/-- C7: a decision with confidence strictly below the configured 0.70 threshold
is refused by the Safety Gate with the reason citing the confidence threshold,
whatever its action, volume or cost narrative — the confidence check is the
first check evaluated. -/
theorem C7_low_confidence_always_refused (d : AgentDecision)
    (h : d.confidence < 0.70) :
    CONFIDENCE_THRESHOLD = 0.70 ∧
    validate_decision d
      = (false, SafetyReason.confidenceBelow d.confidence CONFIDENCE_THRESHOLD) := by
  refine ⟨rfl, ?_⟩
  unfold validate_decision
  rw [if_pos]
  exact h

/-- C7 witness: the confidence-0.65 decision is refused with the
threshold-citing reason. -/
theorem C7_witness :
    CONFIDENCE_THRESHOLD = 0.70 ∧
    validate_decision lowConfidenceDecision
      = (false, SafetyReason.confidenceBelow lowConfidenceDecision.confidence
          CONFIDENCE_THRESHOLD) :=
  C7_low_confidence_always_refused lowConfidenceDecision (by norm_num [lowConfidenceDecision, rerouteDemoDecision])

/-- Helper: the string value of a decision type equals "REROUTE" exactly for
the REROUTE constructor. -/
theorem DecisionEnum.toStr_eq_REROUTE_iff (e : DecisionEnum) :
    e.toStr = "REROUTE" ↔ e = DecisionEnum.REROUTE := by
  cases e <;> simp only [DecisionEnum.toStr] <;> decide

/-- C10: the two safety-check implementations agree on approval — for any
decision, `ValidationTool.validate` applied to the decision's action string,
confidence, cost narrative and affected volume returns `is_valid` true exactly
when `validate_decision` returns `is_safe` true (same three conditions, checked
in a different order). -/
theorem C10_tool_agrees_with_safety_gate (d : AgentDecision) :
    (ValidationTool.validate d.decision.toStr d.confidence d.cost_analysis
        d.affected_volume).1
      = (validate_decision d).1 := by
  unfold ValidationTool.validate validate_decision
  simp only [DecisionEnum.toStr_eq_REROUTE_iff]
  by_cases h1 : d.confidence < CONFIDENCE_THRESHOLD <;>
    by_cases h2 : 1000 < d.affected_volume <;>
      by_cases h3 : d.decision = DecisionEnum.REROUTE ∧
        (containsSub "Net: -" d.cost_analysis ∨ containsSub "Net -" d.cost_analysis) <;>
    simp [h1, h2, h3]

/-! ## Failure clusters (src/models.py) and pattern classification
(src/council_agent.py) -/

/-- Aggregated failure pattern (`FailureCluster` in src/models.py). -/
structure FailureCluster where
  bank : String
  card_type : String
  amount_range : String
  count : Int
  avg_amount : ℚ
  failure_rate : ℚ
  time_window : String
  error_codes : List String
  deriving DecidableEq

/-- Pattern-type classification `_classify_pattern_type` (src/council_agent.py).
The source lowercases the text `f"{bank} {card_type} {amount_range}
{failure_rate}"`; the trailing numeric failure-rate component is made of digits,
a dot, a sign or an exponent and so can never contribute to the purely
alphabetic keywords searched for, hence it is omitted from the searched text. -/
def classify_pattern_type (cluster : FailureCluster) : String :=
  let pattern_text :=
    lowerStr (cluster.bank ++ " " ++ cluster.card_type ++ " " ++ cluster.amount_range)
  if 0.7 < cluster.failure_rate ∧ containsSub "spike" pattern_text then
    "bank_spike"
  else if containsSub "<100" cluster.amount_range ∨ containsSub "<200" cluster.amount_range then
    "micro_transaction"
  else if containsSub ">5000" cluster.amount_range ∨ 5000 < cluster.avg_amount then
    "vip_anomaly"
  else if 50 < cluster.count ∧ 0.8 < cluster.failure_rate then
    "card_testing"
  else if containsSub "fraud" pattern_text ∨ containsSub "security" pattern_text then
    "high_risk_payment"
  else
    "payment_failure"

/-! ## Pattern history and the calibration rule cascade (src/council_agent.py) -/

/-- One entry of the confidence adjustment log (the `adjustment_log_entry` dict
built in `_apply_calibration_rules`). Timestamps are rationals (seconds). -/
structure LogEntry where
  timestamp : ℚ
  pattern_type : String
  previous_modifier : ℚ
  new_modifier : ℚ
  reason : String
  deriving DecidableEq

/-- Persistent per-pattern-type history record (the dict created in
`_calibrate_confidence`, src/council_agent.py). -/
structure PatternHistory where
  pattern_type : String
  total_occurrences : Int
  predictions_correct : Int
  predictions_wrong : Int
  prediction_accuracy : Option ℚ
  average_resolution_time_minutes : Option ℚ
  last_seen_timestamp : Option ℚ
  last_outcome : Option String
  second_to_last_outcome : Option String
  current_confidence_modifier : ℚ
  confidence_adjustment_log : List LogEntry
  deriving DecidableEq

/-- Fresh history record created on first encounter of a pattern type
(src/council_agent.py, `_calibrate_confidence`). -/
def defaultPatternHistory (pattern_type : String) : PatternHistory :=
  { pattern_type := pattern_type
    total_occurrences := 0
    predictions_correct := 0
    predictions_wrong := 0
    prediction_accuracy := none
    average_resolution_time_minutes := none
    last_seen_timestamp := none
    last_outcome := none
    second_to_last_outcome := none
    current_confidence_modifier := 1.0
    confidence_adjustment_log := [] }

/-- Rule 3, `_apply_rule_3` (src/council_agent.py): prediction accuracy
modifier; skipped when the accuracy is unknown or no occurrence was recorded,
otherwise records `RULE_3` and scales the running modifier. -/
def apply_rule_3 (base_modifier : ℚ) (history : PatternHistory)
    (rules_applied : List String) : ℚ × List String :=
  match history.prediction_accuracy with
  | none => (base_modifier, rules_applied)
  | some accuracy =>
      if history.total_occurrences = 0 then (base_modifier, rules_applied)
      else
        let rules := rules_applied ++ ["RULE_3"]
        if 0.85 ≤ accuracy then (base_modifier, rules)
        else if 0.70 ≤ accuracy then (base_modifier * 0.92, rules)
        else if 0.50 ≤ accuracy then (base_modifier * 0.80, rules)
        else (base_modifier * 0.65, rules)

/-- Rule 4, `_apply_rule_4` (src/council_agent.py): consecutive-miss penalty. -/
def apply_rule_4 (base_modifier : ℚ) (history : PatternHistory)
    (rules_applied : List String) : ℚ × List String :=
  if history.last_outcome = some "prediction_miss" ∧
      history.second_to_last_outcome = some "prediction_miss" then
    (base_modifier * 0.70, rules_applied ++ ["RULE_4"])
  else if history.last_outcome = some "prediction_miss" then
    (base_modifier * 0.88, rules_applied ++ ["RULE_4"])
  else
    (base_modifier, rules_applied)

/-- Time-based decay factor `_calculate_staleness_decay`
(src/council_agent.py). -/
def calculate_staleness_decay (minutes : ℚ) : ℚ :=
  if minutes ≤ 15 then 1.0
  else if minutes ≤ 30 then 0.95
  else if minutes ≤ 60 then 0.85
  else if minutes ≤ 120 then 0.70
  else 0.55

/-- Python's `round` to the nearest integer, rounding halves to even. -/
def roundHalfEven (q : ℚ) : ℤ :=
  if q - ⌊q⌋ < 1/2 then ⌊q⌋
  else if 1/2 < q - ⌊q⌋ then ⌊q⌋ + 1
  else if ⌊q⌋ % 2 = 0 then ⌊q⌋ else ⌊q⌋ + 1

/-- Python's `round(q, 2)`. -/
def round2 (q : ℚ) : ℚ :=
  (roundHalfEven (q * 100) : ℚ) / 100

/-- Ordered rule cascade of `_apply_calibration_rules` (src/council_agent.py,
the `RULE 1` / `RULE 2` / rules-3-and-4 branches): returns the base modifier
after the cascade, the applied rules, and the override notes. Rule 1 fires when
the pattern type has at most 2 prior occurrences or was never seen; Rule 2
fires when the last-seen timestamp lies more than 48 hours before the current
time; otherwise Rules 3 and 4 run in sequence. -/
def calibCascade (history : PatternHistory) (current_time : ℚ) :
    ℚ × List String × List String :=
  if history.total_occurrences ≤ 2 then
    (0.80, ["RULE_1"], ["RULE_1 overrode RULE_2, RULE_3, RULE_4"])
  else
    match history.last_seen_timestamp with
    | some last_seen =>
        let hours_since := (current_time - last_seen) / 3600
        if 48 < hours_since then
          (1.0, ["RULE_2"], ["RULE_2 overrode RULE_3, RULE_4"])
        else
          let r3 := apply_rule_3 history.current_confidence_modifier history []
          let r4 := apply_rule_4 r3.1 history r3.2
          (r4.1, r4.2, [])
    | none =>
        (0.80, ["RULE_1"], ["RULE_1 overrode RULE_2, RULE_3, RULE_4"])

/-- Final confidence baseline before the floor clamp: cascade result times the
staleness decay, whose elapsed-minutes input is fixed at 0 inside
`_apply_calibration_rules` (`time_since_first_detected_minutes = 0`). -/
def calibFinalUnclamped (history : PatternHistory) (current_time : ℚ) : ℚ :=
  (calibCascade history current_time).1 * calculate_staleness_decay 0

/-- Final confidence baseline after the 0.40 floor clamp
(src/council_agent.py, `# Apply confidence floor`). -/
def calibFinalClamped (history : PatternHistory) (current_time : ℚ) : ℚ :=
  if calibFinalUnclamped history current_time < 0.40 then 0.40
  else calibFinalUnclamped history current_time

/-- Ephemeral calibration record returned by `_apply_calibration_rules`
(src/council_agent.py). The `calibration_id`, `reasoning` and
`council_briefing` fields are presentation strings built from the same data and
are omitted. -/
structure Calibration where
  pattern_id : String
  pattern_type : String
  rules_applied : List String
  rule_overrides : List String
  base_modifier : ℚ
  staleness_decay : ℚ
  final_confidence_baseline : ℚ
  confidence_floor_hit : Bool
  needs_rescan : Bool
  adjustment_log_entry : LogEntry
  deriving DecidableEq

/-- Calibration of one cluster, `_apply_calibration_rules`
(src/council_agent.py): cascade, staleness decay at 0 elapsed minutes, floor
clamp at 0.40, rescan flag, and the adjustment log entry. The `cluster`
argument is accepted, as in the source, but not read. -/
def apply_calibration_rules (pattern_id pattern_type : String)
    (_cluster : FailureCluster) (history : PatternHistory) (current_time : ℚ) :
    Calibration :=
  let previous_modifier := history.current_confidence_modifier
  let base_modifier := (calibCascade history current_time).1
  let rules_applied := (calibCascade history current_time).2.1
  let rule_overrides := (calibCascade history current_time).2.2
  let staleness_decay := calculate_staleness_decay 0
  { pattern_id := pattern_id
    pattern_type := pattern_type
    rules_applied := rules_applied
    rule_overrides := rule_overrides
    base_modifier := round2 base_modifier
    staleness_decay := round2 staleness_decay
    final_confidence_baseline := round2 (calibFinalClamped history current_time)
    confidence_floor_hit := decide (calibFinalUnclamped history current_time < 0.40)
    needs_rescan :=
      decide (staleness_decay ≤ 0.70 ∨ calibFinalClamped history current_time ≤ 0.50)
    adjustment_log_entry :=
      { timestamp := current_time
        pattern_type := pattern_type
        previous_modifier := round2 previous_modifier
        new_modifier := round2 base_modifier
        reason :=
          if rules_applied.isEmpty then "No change"
          else String.intercalate " + " rules_applied } }

/-! ## Pattern history store and the calibration loop (src/council_agent.py) -/

/-- Persistent pattern history store: association list keyed by pattern-type
label, preserving insertion order like the Python dict behind
`data/pattern_history.json`. -/
abbrev PatternStore := List (String × PatternHistory)

/-- Dictionary lookup in the pattern history store. -/
def lookupStore (store : PatternStore) (key : String) : Option PatternHistory :=
  match store with
  | [] => none
  | (k, v) :: rest => if k = key then some v else lookupStore rest key

/-- Zero-padded four-digit index used in `f"PAT-{bank}-{card_type}-{idx:04d}"`. -/
def pad4 (n : ℕ) : String :=
  let s := toString n
  String.mk (List.replicate (4 - s.length) '0') ++ s

/-- Pattern identifier assigned per cluster in `_calibrate_confidence`. -/
def patternIdOf (cluster : FailureCluster) (idx : ℕ) : String :=
  "PAT-" ++ cluster.bank ++ "-" ++ cluster.card_type ++ "-" ++ pad4 idx

/-- Loop body of `_calibrate_confidence` (src/council_agent.py): for each
cluster, classify its pattern type, create a fresh history record when the type
is unseen, compute the calibration from the stored history, and continue; the
store is returned alongside the collected calibrations. -/
def calibrateGo (now : ℚ) :
    List FailureCluster → ℕ → PatternStore → PatternStore × List Calibration
  | [], _, store => (store, [])
  | cluster :: rest, idx, store =>
      let pattern_type := classify_pattern_type cluster
      let store1 :=
        if (lookupStore store pattern_type).isSome then store
        else store ++ [(pattern_type, defaultPatternHistory pattern_type)]
      let history := (lookupStore store1 pattern_type).getD (defaultPatternHistory pattern_type)
      let calibration :=
        apply_calibration_rules (patternIdOf cluster idx) pattern_type cluster history now
      let next := calibrateGo now rest (idx + 1) store1
      (next.1, calibration :: next.2)

/-- Confidence calibration over the ranked clusters, `_calibrate_confidence`
(src/council_agent.py): runs the loop and returns the (saved) store together
with the calibration list. -/
def calibrate_confidence (clusters : List FailureCluster) (now : ℚ)
    (store : PatternStore) : PatternStore × List Calibration :=
  calibrateGo now clusters 0 store

/-! ## Claims about the Confidence Calibrator -/

/-- Helper: `roundHalfEven` never drops below an integer lower bound. -/
theorem roundHalfEven_ge (n : ℤ) (q : ℚ) (h : (n : ℚ) ≤ q) :
    n ≤ roundHalfEven q := by
  unfold roundHalfEven
  have hf : n ≤ ⌊q⌋ := Int.le_floor.mpr h
  split
  · exact hf
  split
  · omega
  split
  · exact hf
  · omega

/-- Helper: `round2` never drops below a hundredth-of-an-integer lower bound. -/
theorem round2_ge (n : ℤ) (q : ℚ) (h : (n : ℚ) / 100 ≤ q) :
    (n : ℚ) / 100 ≤ round2 q := by
  unfold round2
  have h1 : (n : ℚ) ≤ q * 100 := by linarith
  have h2 : n ≤ roundHalfEven (q * 100) := roundHalfEven_ge n _ h1
  have h3 : (n : ℚ) ≤ (roundHalfEven (q * 100) : ℚ) := by exact_mod_cast h2
  linarith

/-- Helper: `round2 1 = 1`. -/
theorem round2_one : round2 1 = 1 := by
  have h100 : ⌊(1 : ℚ) * 100⌋ = 100 := by norm_num
  norm_num [round2, roundHalfEven, h100]

/-- C3: every calibration has a final confidence baseline of at least 0.40, and
`confidence_floor_hit` is recorded true exactly when the pre-clamp value
(cascade result times staleness decay) was below 0.40. -/
theorem C3_confidence_floor (pid pt : String) (cluster : FailureCluster)
    (history : PatternHistory) (now : ℚ) :
    0.40 ≤ (apply_calibration_rules pid pt cluster history now).final_confidence_baseline ∧
    ((apply_calibration_rules pid pt cluster history now).confidence_floor_hit = true ↔
      calibFinalUnclamped history now < 0.40) := by
  constructor
  · show (0.40 : ℚ) ≤ round2 (calibFinalClamped history now)
    have hcl : (0.40 : ℚ) ≤ calibFinalClamped history now := by
      unfold calibFinalClamped
      split
      · norm_num
      · rename_i hge
        linarith [not_lt.mp hge]
    have h40 : ((40 : ℤ) : ℚ) / 100 = 0.40 := by norm_num
    have := round2_ge 40 (calibFinalClamped history now) (by rw [h40]; exact hcl)
    linarith [this, h40.symm ▸ this]
  · show decide (calibFinalUnclamped history now < 0.40) = true ↔ _
    simp only [decide_eq_true_eq]

/-- Helper: Rule 3 only ever appends `RULE_3` to the applied-rules list. -/
theorem apply_rule_3_mem (x : String) (b : ℚ) (h : PatternHistory)
    (r : List String) (hx : x ∈ (apply_rule_3 b h r).2) :
    x ∈ r ∨ x = "RULE_3" := by
  unfold apply_rule_3 at hx
  repeat' split at hx
  all_goals
    first
      | exact Or.inl hx
      | (rcases List.mem_append.mp hx with h1 | h1
         · exact Or.inl h1
         · simp only [List.mem_singleton] at h1
           exact Or.inr h1)

/-- Helper: Rule 4 only ever appends `RULE_4` to the applied-rules list. -/
theorem apply_rule_4_mem (x : String) (b : ℚ) (h : PatternHistory)
    (r : List String) (hx : x ∈ (apply_rule_4 b h r).2) :
    x ∈ r ∨ x = "RULE_4" := by
  unfold apply_rule_4 at hx
  repeat' split at hx
  all_goals
    first
      | exact Or.inl hx
      | (rcases List.mem_append.mp hx with h1 | h1
         · exact Or.inl h1
         · simp only [List.mem_singleton] at h1
           exact Or.inr h1)

/-- Helper: the rule cascade yields exactly `[RULE_1]`, exactly `[RULE_2]`, or
a list containing neither of them (the rules-3-and-4 branch). -/
theorem calibCascade_rules_cases (history : PatternHistory) (now : ℚ) :
    (calibCascade history now).2.1 = ["RULE_1"] ∨
    (calibCascade history now).2.1 = ["RULE_2"] ∨
    ("RULE_1" ∉ (calibCascade history now).2.1 ∧
     "RULE_2" ∉ (calibCascade history now).2.1) := by
  unfold calibCascade
  split
  · exact Or.inl rfl
  · split
    · dsimp only
      split
      · exact Or.inr (Or.inl rfl)
      · refine Or.inr (Or.inr ⟨?_, ?_⟩)
        all_goals
          intro hx
          rcases apply_rule_4_mem _ _ _ _ hx with h1 | h1
          · rcases apply_rule_3_mem _ _ _ _ h1 with h2 | h2
            · exact absurd h2 (List.not_mem_nil _)
            · exact absurd h2 (by decide)
          · exact absurd h1 (by decide)
    · exact Or.inl rfl

/-- C4: for every calibration exactly one of the branches Rule 1, Rule 2, or
the Rule 3+4 combination fires — `RULE_1` and `RULE_2` are never both recorded
in `rules_applied`, and whenever one of them is recorded it is recorded alone. -/
theorem C4_rule_branch_exclusivity (pid pt : String) (cluster : FailureCluster)
    (history : PatternHistory) (now : ℚ) :
    ¬("RULE_1" ∈ (apply_calibration_rules pid pt cluster history now).rules_applied ∧
      "RULE_2" ∈ (apply_calibration_rules pid pt cluster history now).rules_applied) ∧
    ("RULE_1" ∈ (apply_calibration_rules pid pt cluster history now).rules_applied →
      (apply_calibration_rules pid pt cluster history now).rules_applied = ["RULE_1"]) ∧
    ("RULE_2" ∈ (apply_calibration_rules pid pt cluster history now).rules_applied →
      (apply_calibration_rules pid pt cluster history now).rules_applied = ["RULE_2"]) := by
  have hra : (apply_calibration_rules pid pt cluster history now).rules_applied
      = (calibCascade history now).2.1 := rfl
  rw [hra]
  rcases calibCascade_rules_cases history now with h | h | h
  · rw [h]
    refine ⟨?_, fun _ => rfl, ?_⟩
    · rintro ⟨-, h2⟩
      simp only [List.mem_singleton] at h2
      exact absurd h2 (by decide)
    · intro h2
      simp only [List.mem_singleton] at h2
      exact absurd h2 (by decide)
  · rw [h]
    refine ⟨?_, ?_, fun _ => rfl⟩
    · rintro ⟨h1, -⟩
      simp only [List.mem_singleton] at h1
      exact absurd h1 (by decide)
    · intro h1
      simp only [List.mem_singleton] at h1
      exact absurd h1 (by decide)
  · exact ⟨fun hc => h.1 hc.1, fun h1 => absurd h1 h.1, fun h2 => absurd h2 h.2⟩

/-- C9: within a run the staleness decay factor is 1 (the elapsed-minutes input
is fixed at 0), hence the pre-clamp final confidence baseline equals the
cascade's base modifier, and `needs_rescan` is recorded true exactly when the
(clamped) final confidence baseline is at most 0.50. -/
theorem C9_decay_fixed_within_run (pid pt : String) (cluster : FailureCluster)
    (history : PatternHistory) (now : ℚ) :
    (apply_calibration_rules pid pt cluster history now).staleness_decay = 1 ∧
    calibFinalUnclamped history now = (calibCascade history now).1 ∧
    ((apply_calibration_rules pid pt cluster history now).needs_rescan = true ↔
      calibFinalClamped history now ≤ 0.50) := by
  have hd : calculate_staleness_decay 0 = 1 := by
    norm_num [calculate_staleness_decay]
  refine ⟨?_, ?_, ?_⟩
  · show round2 (calculate_staleness_decay 0) = 1
    rw [hd, round2_one]
  · unfold calibFinalUnclamped
    rw [hd, mul_one]
  · show decide (calculate_staleness_decay 0 ≤ 0.70 ∨
        calibFinalClamped history now ≤ 0.50) = true ↔ _
    rw [hd]
    simp only [decide_eq_true_eq]
    constructor
    · rintro (h | h)
      · norm_num at h
      · exact h
    · exact fun h => Or.inr h

/-- C6: when the pattern type has more than 2 prior occurrences and was last
seen more than 48 hours before the current time, the base modifier is reset to
1.0, Rule 2 alone is recorded, and Rules 3 and 4 do not fire (the final
confidence baseline is then 1.0 as well). -/
theorem C6_staleness_reset (pid pt : String) (cluster : FailureCluster)
    (history : PatternHistory) (now last_seen : ℚ)
    (h2 : 2 < history.total_occurrences)
    (hts : history.last_seen_timestamp = some last_seen)
    (h48 : 48 < (now - last_seen) / 3600) :
    (apply_calibration_rules pid pt cluster history now).base_modifier = 1 ∧
    (apply_calibration_rules pid pt cluster history now).rules_applied = ["RULE_2"] ∧
    (apply_calibration_rules pid pt cluster history now).final_confidence_baseline = 1 := by
  have hc : calibCascade history now
      = (1.0, ["RULE_2"], ["RULE_2 overrode RULE_3, RULE_4"]) := by
    unfold calibCascade
    rw [if_neg (by omega), hts]
    dsimp only
    rw [if_pos h48]
  have hu : calibFinalUnclamped history now = 1 := by
    unfold calibFinalUnclamped
    rw [hc]
    norm_num [calculate_staleness_decay]
  have hcl : calibFinalClamped history now = 1 := by
    unfold calibFinalClamped
    rw [hu]
    norm_num
  refine ⟨?_, ?_, ?_⟩
  · show round2 (calibCascade history now).1 = 1
    rw [hc]
    norm_num [round2_one]
  · show (calibCascade history now).2.1 = ["RULE_2"]
    rw [hc]
  · show round2 (calibFinalClamped history now) = 1
    rw [hcl, round2_one]

/-- Cluster used by the concrete calibration runs below; it classifies to the
default `payment_failure` pattern type. -/
def demoCluster : FailureCluster :=
  { bank := "HDFC"
    card_type := "Debit"
    amount_range := "100-1000"
    count := 20
    avg_amount := 500
    failure_rate := 0.5
    time_window := "14:00-16:00"
    error_codes := ["TIMEOUT"] }

/-- History of a pattern type with accuracy 0.91, more than 2 occurrences, last
seen 72 hours (259200 seconds) before the witness run time. -/
def staleHistory : PatternHistory :=
  { pattern_type := "payment_failure"
    total_occurrences := 5
    predictions_correct := 5
    predictions_wrong := 0
    prediction_accuracy := some 0.91
    average_resolution_time_minutes := none
    last_seen_timestamp := some 0
    last_outcome := some "prediction_hit"
    second_to_last_outcome := some "prediction_hit"
    current_confidence_modifier := 1.0
    confidence_adjustment_log := [] }

/-- C6 witness: a pattern last seen 72 hours ago (259200 seconds) with accuracy
0.91 is reset to modifier 1.0 with only Rule 2 recorded. -/
theorem C6_witness :
    (apply_calibration_rules "PAT-HDFC-Debit-0000" "payment_failure" demoCluster
        staleHistory 259200).base_modifier = 1 ∧
    (apply_calibration_rules "PAT-HDFC-Debit-0000" "payment_failure" demoCluster
        staleHistory 259200).rules_applied = ["RULE_2"] ∧
    (apply_calibration_rules "PAT-HDFC-Debit-0000" "payment_failure" demoCluster
        staleHistory 259200).final_confidence_baseline = 1 :=
  C6_staleness_reset "PAT-HDFC-Debit-0000" "payment_failure" demoCluster
    staleHistory 259200 0 (by decide) rfl (by norm_num)

/-- History of a recently seen pattern type (last seen 1000 seconds before the
run below) with known accuracy, more than 2 occurrences, and an empty
adjustment log. -/
def recentHistory : PatternHistory :=
  { pattern_type := "payment_failure"
    total_occurrences := 5
    predictions_correct := 4
    predictions_wrong := 1
    prediction_accuracy := some 0.8
    average_resolution_time_minutes := none
    last_seen_timestamp := some 259000
    last_outcome := some "prediction_hit"
    second_to_last_outcome := some "prediction_hit"
    current_confidence_modifier := 1.0
    confidence_adjustment_log := [] }

/-- C5: calibrating a cluster of an already-known pattern type leaves the
persisted history record completely unchanged — in particular no entry is
appended to its `confidence_adjustment_log`, even though a calibration (here
applying Rule 3) is produced and carries the computed `adjustment_log_entry`.
The spec requires the stored record to be mutated on every calibration; the
code only ever creates fresh records and never writes the log entry back. -/
theorem C5_store_not_mutated_by_calibration :
    (calibrate_confidence [demoCluster] 260000 [("payment_failure", recentHistory)]).1
      = [("payment_failure", recentHistory)] ∧
    lookupStore (calibrate_confidence [demoCluster] 260000
        [("payment_failure", recentHistory)]).1 "payment_failure"
      = some recentHistory ∧
    ((calibrate_confidence [demoCluster] 260000
        [("payment_failure", recentHistory)]).2.map Calibration.rules_applied)
      = [["RULE_3"]] ∧
    recentHistory.confidence_adjustment_log = [] := by
  have ha : ¬((0.7 : ℚ) < demoCluster.failure_rate) := by
    norm_num [demoCluster]
  have hb : ¬((5000 : ℚ) < demoCluster.avg_amount) := by
    norm_num [demoCluster]
  have hcl : classify_pattern_type demoCluster = "payment_failure" := by
    unfold classify_pattern_type
    rw [if_neg, if_neg, if_neg, if_neg, if_neg]
    · rintro (h | h) <;> revert h <;> decide
    · rintro ⟨h, -⟩
      revert h
      decide
    · rintro (h | h)
      · revert h; decide
      · exact hb h
    · rintro (h | h) <;> revert h <;> decide
    · rintro ⟨h, -⟩
      exact ha h
  have hcas : (calibCascade recentHistory 260000).2.1 = ["RULE_3"] := by
    have hs : ("prediction_hit" : String) ≠ "prediction_miss" := by decide
    norm_num [calibCascade, recentHistory, apply_rule_3, apply_rule_4, hs]
  have hlook : lookupStore [("payment_failure", recentHistory)] "payment_failure"
      = some recentHistory := by
    simp [lookupStore]
  refine ⟨?_, ?_, ?_, rfl⟩
  · show (calibrateGo 260000 [demoCluster] 0 [("payment_failure", recentHistory)]).1 = _
    simp only [calibrateGo, hcl, hlook, Option.isSome_some, if_true]
  · show lookupStore (calibrateGo 260000 [demoCluster] 0
        [("payment_failure", recentHistory)]).1 "payment_failure" = _
    simp only [calibrateGo, hcl, hlook, Option.isSome_some, if_true]
  · show ((calibrateGo 260000 [demoCluster] 0
        [("payment_failure", recentHistory)]).2.map Calibration.rules_applied) = _
    simp only [calibrateGo, hcl, hlook, Option.isSome_some, if_true, Option.getD_some,
      List.map_cons, List.map_nil]
    show [(apply_calibration_rules (patternIdOf demoCluster 0) "payment_failure"
        demoCluster recentHistory 260000).rules_applied] = _
    have : (apply_calibration_rules (patternIdOf demoCluster 0) "payment_failure"
        demoCluster recentHistory 260000).rules_applied
        = (calibCascade recentHistory 260000).2.1 := rfl
    rw [this, hcas]

/-! ## Cluster ranking (src/council_agent.py, `_rank_clusters`) -/

/-- Business-impact score `count × avg_amount` of a cluster. -/
def impactScore (c : FailureCluster) : ℚ :=
  (c.count : ℚ) * c.avg_amount

/-- Sort key of `_rank_clusters` (src/council_agent.py): the Python sort key is
the tuple `(-(count × avg_amount), bank, card_type, amount_range)` compared
lexicographically — negated impact modelled by the order dual, and Python
string comparison modelled by the lexicographic order on character lists. -/
def rankKey (c : FailureCluster) :
    Lex (ℚᵒᵈ × Lex (List Char × Lex (List Char × List Char))) :=
  toLex (OrderDual.toDual (impactScore c),
    toLex (c.bank.toList, toLex (c.card_type.toList, c.amount_range.toList)))

/-- Cluster ranking `_rank_clusters` (src/council_agent.py): sort by the key
(impact descending, ties by ascending sub-keys) and keep the top
`max_clusters` (12 at the call site, the source default). -/
def rank_clusters (clusters : List FailureCluster) (max_clusters : ℕ) :
    List FailureCluster :=
  (clusters.mergeSort (fun c d => decide (rankKey c ≤ rankKey d))).take max_clusters

/-- Helper: the sort key order spelt out — impact descending, ties broken by
ascending lexicographic comparison of bank, card type and amount bucket. -/
theorem rankKey_le_iff (c d : FailureCluster) :
    rankKey c ≤ rankKey d ↔
      (impactScore d < impactScore c ∨
       (impactScore c = impactScore d ∧
        (c.bank.toList < d.bank.toList ∨
         (c.bank.toList = d.bank.toList ∧
          (c.card_type.toList < d.card_type.toList ∨
           (c.card_type.toList = d.card_type.toList ∧
            c.amount_range.toList ≤ d.amount_range.toList)))))) := by
  unfold rankKey
  rw [Prod.Lex.le_iff]
  dsimp only
  rw [Prod.Lex.le_iff, Prod.Lex.le_iff]
  dsimp only
  simp [OrderDual.toDual_lt_toDual]

/-- C8: the Cluster Ranker returns at most 12 clusters, ordered by business
impact (count × avg_amount) descending with ties broken by ascending
lexicographic order on (bank, card_type, amount_range), and the empty input
yields the empty output. -/
theorem C8_ranking_top12_sorted (clusters : List FailureCluster) :
    (rank_clusters clusters 12).length ≤ 12 ∧
    List.Pairwise (fun c d =>
      impactScore d < impactScore c ∨
      (impactScore c = impactScore d ∧
       (c.bank.toList < d.bank.toList ∨
        (c.bank.toList = d.bank.toList ∧
         (c.card_type.toList < d.card_type.toList ∨
          (c.card_type.toList = d.card_type.toList ∧
           c.amount_range.toList ≤ d.amount_range.toList))))))
      (rank_clusters clusters 12) ∧
    rank_clusters [] 12 = [] := by
  refine ⟨List.length_take_le _ _, ?_, by simp [rank_clusters]⟩
  have hs := @List.sorted_mergeSort FailureCluster
    (fun c d => decide (rankKey c ≤ rankKey d))
    (fun a b c hab hbc => by
      simp only [decide_eq_true_eq] at hab hbc ⊢
      exact le_trans hab hbc)
    (fun a b => by
      rcases le_total (rankKey a) (rankKey b) with h | h <;> simp [h])
    clusters
  have hp : List.Pairwise (fun a b => decide (rankKey a ≤ rankKey b) = true)
      (rank_clusters clusters 12) :=
    List.Pairwise.sublist (List.take_sublist 12 _) hs
  exact hp.imp (fun h => (rankKey_le_iff _ _).mp (by
    simpa only [decide_eq_true_eq] using h))
